import Mathlib

/-!
Verification development for the scico repository sample: a shallow embedding
of `scico.function.Function.__init__`, of the training-statistics construction
`stats_obj` in `scico/flax/train/train.py`, and of the `NonLinearPADMM`
solver scaffolding (modelled from the specification, since only its tests are
present in the sources), together with theorems settling the specification's
claims about them. Definitions come first, then the theorems.
-/

namespace Scico

/-- Numeric dtypes relevant to the embedding (real 32/64-bit floats and
complex 64/128-bit, per the data model). -/
inductive DType where
  | float32
  | float64
  | complex64
  | complex128
deriving DecidableEq

/-- An array as far as `Function.__init__` inspects it: its shape and its
dtype. The constructor logic embedded here reads only `.shape` and `.dtype`
of the arrays it produces, so the numeric contents are not represented. -/
structure Arr where
  shape : List Nat
  dtype : DType
deriving DecidableEq

/-- Embedding of `snp.zeros(shape, dtype=dtype)`: an array of the given shape
and dtype. -/
def snpZeros (shape : List Nat) (dtype : DType) : Arr :=
  { shape := shape, dtype := dtype }

/-- The `input_dtypes` argument of `Function.__init__`: either a single dtype
or a list/tuple of dtypes (the source distinguishes the two cases with
`isinstance(input_dtypes, (list, tuple))`). -/
inductive DTypeArg where
  | single (d : DType)
  | seq (l : List DType)

/-- Errors raised by `Function.__init__`. -/
inductive FuncError where
  | notImplementedError (msg : String)
deriving DecidableEq

/-- The message of the `NotImplementedError` raised by `Function.__init__`. -/
def functionAbstractMsg : String :=
  "Function is an abstract base class when the eval_fn parameter is not specified."

/-- The constructed `Function` object: the attributes `__init__` stores on
`self`. `evalFn` is the stored `_eval`. -/
structure FunctionObj where
  input_shapes : List (List Nat)
  input_dtypes : List DType
  output_shape : List Nat
  output_dtype : DType
  evalFn : List Arr → Arr

/-- Embedding of `jax.jit`: semantically the identity on the wrapped
function (compilation only). -/
def jaxJit (f : List Arr → Arr) : List Arr → Arr := f

/-- The list of zero arrays `Function.__init__` builds for output-shape/dtype
inference: `snp.zeros(shape, dtype=dtype)` for each zipped pair of
`self.input_shapes` and `self.input_dtypes`. -/
def zerosFor (shapes : List (List Nat)) (dtypes : List DType) : List Arr :=
  (shapes.zip dtypes).map fun sd => snpZeros sd.1 sd.2

/-- Shallow embedding of `Function.__init__` (src/scico/function.py, lines
28–83). `inheritedEval` models the `_eval` method that an instance may
already have from a derived class (the `hasattr(self, "_eval")` test); it is
`none` when no derived class supplies `_eval`. The result is the constructed
object, or the raised error. The source computes `tmp = self._eval(*zeros)`
once, guarded by `output_shape is None or output_dtype is None`; the
evaluation function is pure here, so binding `tmp` unconditionally is
equivalent. -/
def Function.init (input_shapes : List (List Nat))
    (output_shape : Option (List Nat))
    (eval_fn : Option (List Arr → Arr))
    (input_dtypes : DTypeArg)
    (output_dtype : Option DType)
    (jit : Bool)
    (inheritedEval : Option (List Arr → Arr)) :
    Except FuncError FunctionObj :=
  let inDtypes : List DType :=
    match input_dtypes with
    | .seq l => l
    | .single d => List.replicate input_shapes.length d
  let evalF? : Option (List Arr → Arr) :=
    match eval_fn with
    | some f => some (if jit then jaxJit f else f)
    | none => inheritedEval
  match evalF? with
  | none => .error (.notImplementedError functionAbstractMsg)
  | some ev =>
    let zeros := zerosFor input_shapes inDtypes
    let tmp := ev zeros
    let oshape :=
      match output_shape with
      | none => tmp.shape
      | some s => s
    let odtype :=
      match output_dtype with
      | none => tmp.dtype
      | some d => d
    .ok { input_shapes := input_shapes, input_dtypes := inDtypes,
          output_shape := oshape, output_dtype := odtype, evalFn := ev }

/-- A trivial concrete evaluation function, used to instantiate `eval_fn` in
concrete constructions. -/
def cexEval : List Arr → Arr := fun _ => { shape := [], dtype := DType.float32 }

/-- The `Function` object produced by the witness construction for the
amended claim C9. -/
def dtypeLenWitnessObj : FunctionObj :=
  { input_shapes := [[2], [3]], input_dtypes := [DType.float32, DType.float32],
    output_shape := [2], output_dtype := DType.float32, evalFn := cexEval }

/-- A concrete evaluation function whose output shape and dtype differ from
those of its inputs, used to exercise output inference. -/
def inferEval : List Arr → Arr := fun _ => { shape := [7], dtype := DType.float64 }

/-- The `Function` object produced by the witness construction for claim
C10. -/
def inferWitnessObj : FunctionObj :=
  { input_shapes := [[2], [3]], input_dtypes := [DType.float32, DType.float32],
    output_shape := [7], output_dtype := DType.float64, evalFn := inferEval }

namespace FlaxTrain

/-- Field names and print formats of the training statistics recorder
(`itstat_fields` in `stats_obj`, src/scico/flax/train/train.py). -/
def itstat_fields : List (String × String) :=
  [("Epoch", "%d"), ("Time", "%8.2e"), ("Train LR", "%.6f"),
   ("Train Loss", "%.6f"), ("Train SNR", "%.2f"), ("Eval Loss", "%.6f"),
   ("Eval SNR", "%.2f")]

/-- Attribute names whose values are logged each epoch (`itstat_attrib` in
`stats_obj`). -/
def itstat_attrib : List String :=
  ["epoch", "time", "train_learning_rate", "train_loss", "train_snr",
   "loss", "snr"]

/-- The dynamically built function-body string of `stats_obj`:
the source computes
`"return(" + ", ".join(["obj." + attr for attr in itstat_attrib]) + ")"`. -/
def itstat_return : String :=
  "return(" ++ String.intercalate ", " (itstat_attrib.map (fun attr => "obj." ++ attr)) ++ ")"

/-- The object passed to the generated statistics-insertion function: it
provides the seven attributes named in `itstat_attrib`, with values of some
scalar type `V`. -/
structure TrainStats (V : Type) where
  epoch : V
  time : V
  train_learning_rate : V
  train_loss : V
  train_snr : V
  loss : V
  snr : V

/-- Python attribute lookup `obj.<name>` on a `TrainStats` object (`none` for
an attribute the object does not have). -/
def TrainStats.getattr {V : Type} (obj : TrainStats V) : String → Option V
  | "epoch" => some obj.epoch
  | "time" => some obj.time
  | "train_learning_rate" => some obj.train_learning_rate
  | "train_loss" => some obj.train_loss
  | "train_snr" => some obj.train_snr
  | "loss" => some obj.loss
  | "snr" => some obj.snr
  | _ => none

/-- Semantics of `exec("def itstat_func(obj): " + itstat_return, scope)` in
`stats_obj`: executing the body `return(obj.a1, ..., obj.an)` built from
`itstat_attrib` yields the function that returns the tuple of the attribute
lookups `obj.<attr>` for the attributes listed in `itstat_attrib`, in order
(represented here as a list). -/
def itstat_insert_func {V : Type} (obj : TrainStats V) : List (Option V) :=
  itstat_attrib.map obj.getattr

/-- A concrete statistics object with distinct rational attribute values. -/
def sampleTrainStats : TrainStats ℚ :=
  { epoch := 0, time := 1, train_learning_rate := 2, train_loss := 3,
    train_snr := 4, loss := 5, snr := 6 }

end FlaxTrain

namespace Optimize

/-- Modelled from the spec: the shape-and-dtype description of a numeric
container (spec §3) — an ordinary array (a shape and a dtype) or a block
array (an ordered, fixed-length tuple of containers with independently
specified shapes/dtypes); the concrete array backend is out of scope
(spec §1). -/
inductive ShapeTree where
  | leaf (shape : List Nat) (dtype : DType)
  | block (parts : List ShapeTree)

/-- Modelled from the spec: the `NonLinearPADMM` solver configuration
(spec §4.3) together with its base iterative-algorithm scaffolding
(spec §4.1). The solver implementation belongs to this repository but is
absent from the provided sources (only its tests are present), so it is
modelled here from the spec's words. `V` is the primal space and `W` the
constraint space; the objective terms `f` and `g` and the pluggable
subproblem solver enter only through the update maps below, per the
collaborator interfaces of spec §6. -/
structure NonLinearPADMM (V W : Type) where
  /-- X_UPDATE (spec §4.3 step 1): the pluggable subproblem solver computing
  x ← argmin_x f(x) + (ρ/2)‖H(x, z) − u‖² (or a linearized/proximal
  surrogate step), as a function of the current x, z, u. -/
  xsub : V → W → W → V
  /-- Z_UPDATE (spec §4.3 step 2): the proximal-gradient step on g with the
  linearized coupling penalty, step size 1/μ, damped by ν, as a function of
  the updated x and the current z, u. -/
  zstep : V → W → W → W
  /-- the nonlinear coupling residual H(x, z) (spec §4.3). -/
  H : V → W → W
  /-- addition in the constraint space, used by DUAL_UPDATE (block-array
  arithmetic is elementwise across the tuple, spec §4.2/§3). -/
  addW : W → W → W
  /-- x-side penalty parameter ρ (spec §4.3). -/
  rho : ℚ
  /-- z-side penalty parameter μ (spec §4.3). -/
  mu : ℚ
  /-- linearization damping parameter ν (spec §4.3). -/
  nu : ℚ
  /-- the iteration budget (spec §4.1). -/
  maxiter : Nat

/-- Modelled from the spec: the solver state (spec §3 “Solver state”):
current primal iterate `x`, auxiliary split variable `z`, scaled dual
variable `u`, iteration counter `itnum`, and the per-iteration statistics
history. `stop` is the cooperative-cancellation flag of spec §5, read by the
outer loop at the top of each iteration. `ext` models the remaining
(user-settable) Python attributes of the solver object, which the iteration
step never touches. -/
structure SolverState (V W E : Type) where
  x : V
  z : W
  u : W
  itnum : Nat
  history : List Nat
  stop : Bool
  ext : E

/-- Modelled from the spec: one algorithm-specific step of `NonLinearPADMM`
(spec §4.3): X_UPDATE, then Z_UPDATE, then DUAL_UPDATE u ← u + H(x, z).
Only x, z and u are touched. -/
def NonLinearPADMM.step {V W E : Type} (P : NonLinearPADMM V W)
    (s : SolverState V W E) : SolverState V W E :=
  let x1 := P.xsub s.x s.z s.u
  let z1 := P.zstep x1 s.z s.u
  let u1 := P.addW s.u (P.H x1 z1)
  { s with x := x1, z := z1, u := u1 }

/-- Modelled from the spec: statistics emission (spec §4.1 step (c)): a
record for the current iteration is appended to the history buffer. -/
def recordStats {V W E : Type} (s : SolverState V W E) : SolverState V W E :=
  { s with history := s.history ++ [s.itnum] }

/-- Modelled from the spec: the iteration loop of `solve` (spec §4.1), with
`n` iterations remaining. Each iteration first reads the cooperative stop
flag (spec §5, “read by the outer loop at the top of the next iteration”),
then (a) executes one algorithm-specific step, (b) increments the counter,
(c) records statistics, and (d) invokes the callback with the solver
object. -/
def NonLinearPADMM.solveLoop {V W E : Type} (P : NonLinearPADMM V W)
    (callback : SolverState V W E → SolverState V W E) :
    Nat → SolverState V W E → SolverState V W E
  | 0, s => s
  | n + 1, s =>
    if s.stop then s
    else
      let s1 := P.step s
      let s2 := { s1 with itnum := s1.itnum + 1 }
      let s3 := recordStats s2
      P.solveLoop callback n (callback s3)

/-- Modelled from the spec: `solve(callback) → final primal iterate`
(spec §4.1): runs iterations from the current counter up to the maximum and
returns the final state (whose `.x` is the returned primal iterate). A
`callback` of `id` models `callback=None`. -/
def NonLinearPADMM.solve {V W E : Type} (P : NonLinearPADMM V W)
    (callback : SolverState V W E → SolverState V W E)
    (s0 : SolverState V W E) : SolverState V W E :=
  P.solveLoop callback P.maxiter s0

/-- A callback that mutates only user attributes of the solver object by
`f`: the model of a Python callback such as `obj.test_flag = True`. -/
def attrCallback {V W E : Type} (f : E → E) :
    SolverState V W E → SolverState V W E :=
  fun s => { s with ext := f s.ext }

/-- A concrete solver instance over rational scalars (the update maps keep
x and z fixed; H(x, z) = x − z as in the tests; ρ = μ = ν = 1, maxiter = 2
as in the `TestMisc` scenario). -/
def sampleNLPADMM : NonLinearPADMM ℚ ℚ :=
  { xsub := fun x _ _ => x, zstep := fun _ z _ => z,
    H := fun x z => x - z, addW := fun a b => a + b,
    rho := 1, mu := 1, nu := 1, maxiter := 2 }

/-- A concrete initial solver state whose `ext` attribute is the test's
`test_flag`, initially `False`. -/
def sampleState0 : SolverState ℚ ℚ Bool :=
  { x := 0, z := 0, u := 0, itnum := 0, history := [], stop := false,
    ext := false }

/-- A concrete solver instance over shape trees, used to exercise the shape
preservation theorem on the block shapes of the `TestBlockArray` scenario. -/
def shapeNLPADMM : NonLinearPADMM ShapeTree ShapeTree :=
  { xsub := fun x _ _ => x, zstep := fun _ z _ => z,
    H := fun x _ => x, addW := fun a _ => a,
    rho := 1, mu := 1, nu := 1, maxiter := 1 }

/-- The heterogeneous block shape of the `TestBlockArray` scenario: a block
of a (32, 33) array and a (17,) array, both float32. -/
def blockX0 : ShapeTree :=
  ShapeTree.block [ShapeTree.leaf [32, 33] DType.float32,
    ShapeTree.leaf [17] DType.float32]

/-- A concrete initial state whose x, z, u all carry the heterogeneous block
shape `blockX0`. -/
def shapeState0 : SolverState ShapeTree ShapeTree Unit :=
  { x := blockX0, z := blockX0, u := blockX0, itnum := 0, history := [],
    stop := false, ext := () }

/-- Modelled from the spec: the iteration-statistics recorder
(`IterationStats`, spec §4.4), absent from the provided sources: an ordered
mapping of field-name → print-format, an optional display flag, and an
append-only history of rows. -/
structure IterationStats where
  fields : List (String × String)
  display : Bool
  history : List (List String)

/-- The recorder's ordered field names (the `fieldname` attribute whose
length the tests inspect). -/
def IterationStats.fieldname (st : IterationStats) : List String :=
  st.fields.map Prod.fst

/-- Modelled from the spec: the `itstat_options` mapping (spec §4.1/§6):
recognized options are `fields` (field-name → print-format), `itstat_func`
(a function computing the tuple of field values from solver state, here as a
list of rational scalars) and `display`. -/
structure ItstatOptions (S : Type) where
  fields : List (String × String)
  itstat_func : S → List ℚ
  display : Bool

/-- Modelled from the spec: the solver's default statistics fields — the
iteration number, the elapsed time, and the two convergence diagnostics of
spec §4.2/§4.3 (primal and dual residual norms); spec §8 fixes the default
at exactly 4 fields (“iteration, time, + 2 more”). -/
def defaultItstatFields : List (String × String) :=
  [("Iter", "%d"), ("Time", "%8.2e"), ("Prml Rsdl", "%8.3e"),
   ("Dual Rsdl", "%8.3e")]

/-- Modelled from the spec: construction of the statistics recorder from the
optional `itstat_options` constructor argument (spec §4.1): with no options
the default field set is used; options with a `fields` entry redefine the
field set (spec §4.4: the recorder “must support field-set redefinition at
construction”). -/
def buildItstatObject (S : Type) (opts : Option (ItstatOptions S)) :
    IterationStats :=
  match opts with
  | none => { fields := defaultItstatFields, display := true, history := [] }
  | some o => { fields := o.fields, display := o.display, history := [] }

/-- The custom statistics options of the `test_itstat` scenario: the two
fields `Iter` and `Time` with an insertion function of matching arity. -/
def sampleItstatOptions : ItstatOptions Unit :=
  { fields := [("Iter", "%d"), ("Time", "%8.2e")],
    itstat_func := fun _ => [0, 0], display := false }

end Optimize

/-- Claim C8: `Function.__init__` raises `NotImplementedError` exactly when
the `eval_fn` argument is `None` and the instance's class provides no `_eval`
method; when `eval_fn` is supplied, or a derived class defines `_eval`,
construction does not raise this error. -/
theorem function_init_notimplemented_iff (input_shapes : List (List Nat))
    (output_shape : Option (List Nat)) (eval_fn : Option (List Arr → Arr))
    (input_dtypes : DTypeArg) (output_dtype : Option DType) (jit : Bool)
    (inheritedEval : Option (List Arr → Arr)) :
    Function.init input_shapes output_shape eval_fn input_dtypes output_dtype
        jit inheritedEval
      = Except.error (FuncError.notImplementedError functionAbstractMsg)
    ↔ eval_fn = none ∧ inheritedEval = none := by
  cases eval_fn with
  | some f => simp [Function.init]
  | none =>
    cases inheritedEval with
    | some g => simp [Function.init]
    | none => simp [Function.init]

/-- Witness for claim C8: a concrete construction with `eval_fn = None` and
no inherited `_eval` raises the `NotImplementedError`. -/
theorem function_init_notimplemented_iff_witness :
    Function.init [[2]] (some [2]) none (DTypeArg.single DType.float32)
        (some DType.float32) false none
      = Except.error (FuncError.notImplementedError functionAbstractMsg) :=
  (function_init_notimplemented_iff [[2]] (some [2]) none
    (DTypeArg.single DType.float32) (some DType.float32) false none).mpr
    ⟨rfl, rfl⟩

/-- Counterexample for claim C9: a `Function` constructed with two input
shapes but an `input_dtypes` list of length one (output shape and dtype
supplied explicitly, so no inference is needed) is constructed successfully,
and its stored `input_dtypes` and `input_shapes` have different lengths: the
source stores a list-valued `input_dtypes` unchanged, with no length check
against `input_shapes`. -/
theorem function_init_dtype_len_cex :
    ∃ fo, Function.init [[2], [3]] (some [2]) (some cexEval)
        (DTypeArg.seq [DType.float32]) (some DType.float32) false none
      = Except.ok fo
      ∧ fo.input_dtypes.length ≠ fo.input_shapes.length := by
  refine ⟨_, rfl, ?_⟩
  decide

/-- Claim C9 (amended): for a successfully constructed `Function`,
`len(self.input_dtypes) = len(self.input_shapes)` holds whenever
`input_dtypes` is given as a single dtype (it is then broadcast to a tuple of
length `len(input_shapes)` with every element equal to the given dtype), or
as a list/tuple whose length already equals `len(input_shapes)`; a list/tuple
of a different length is stored unchanged and violates the equality. -/
theorem function_init_dtype_len (input_shapes : List (List Nat))
    (output_shape : Option (List Nat)) (eval_fn : Option (List Arr → Arr))
    (input_dtypes : DTypeArg) (output_dtype : Option DType) (jit : Bool)
    (inheritedEval : Option (List Arr → Arr))
    (hd : (∃ d, input_dtypes = DTypeArg.single d) ∨
      (∃ l, input_dtypes = DTypeArg.seq l ∧ l.length = input_shapes.length))
    (fo : FunctionObj)
    (hok : Function.init input_shapes output_shape eval_fn input_dtypes
        output_dtype jit inheritedEval = Except.ok fo) :
    fo.input_dtypes.length = fo.input_shapes.length := by
  rcases hd with ⟨d, rfl⟩ | ⟨l, rfl, hl⟩
  · cases eval_fn with
    | some f =>
      simp only [Function.init] at hok
      obtain rfl := (Except.ok.inj hok).symm
      simp
    | none =>
      cases inheritedEval with
      | some g =>
        simp only [Function.init] at hok
        obtain rfl := (Except.ok.inj hok).symm
        simp
      | none => simp [Function.init] at hok
  · cases eval_fn with
    | some f =>
      simp only [Function.init] at hok
      obtain rfl := (Except.ok.inj hok).symm
      exact hl
    | none =>
      cases inheritedEval with
      | some g =>
        simp only [Function.init] at hok
        obtain rfl := (Except.ok.inj hok).symm
        exact hl
      | none => simp [Function.init] at hok

/-- Witness for the amended claim C9: a concrete construction with a single
dtype, broadcast to both input shapes, satisfies the length equality. -/
theorem function_init_dtype_len_witness :
    dtypeLenWitnessObj.input_dtypes.length = dtypeLenWitnessObj.input_shapes.length :=
  function_init_dtype_len [[2], [3]] (some [2]) (some cexEval)
    (DTypeArg.single DType.float32) (some DType.float32) false none
    (Or.inl ⟨DType.float32, rfl⟩) dtypeLenWitnessObj rfl

/-- Claim C10: when `Function.__init__` receives `output_shape = None`
(respectively `output_dtype = None`), the stored `output_shape`
(respectively `output_dtype`) is the shape (respectively dtype) of the value
of the evaluation function on zero arrays of the declared input shapes and
dtypes; a non-`None` supplied value is stored unchanged. -/
theorem function_init_output_inference (input_shapes : List (List Nat))
    (output_shape : Option (List Nat)) (f : List Arr → Arr)
    (input_dtypes : DTypeArg) (output_dtype : Option DType) (jit : Bool)
    (inheritedEval : Option (List Arr → Arr)) (fo : FunctionObj)
    (hok : Function.init input_shapes output_shape (some f) input_dtypes
        output_dtype jit inheritedEval = Except.ok fo) :
    fo.output_shape
      = output_shape.getD (f (zerosFor input_shapes fo.input_dtypes)).shape
    ∧ fo.output_dtype
      = output_dtype.getD (f (zerosFor input_shapes fo.input_dtypes)).dtype := by
  cases jit with
  | false =>
    simp only [Function.init] at hok
    obtain rfl := (Except.ok.inj hok).symm
    cases output_shape <;> cases output_dtype <;> exact ⟨rfl, rfl⟩
  | true =>
    simp only [Function.init, jaxJit] at hok
    obtain rfl := (Except.ok.inj hok).symm
    cases output_shape <;> cases output_dtype <;> exact ⟨rfl, rfl⟩

/-- Witness for claim C10: with `output_shape = None` and
`output_dtype = None`, the stored output shape and dtype are those of the
evaluation function applied to the zero arrays. -/
theorem function_init_output_inference_witness :
    inferWitnessObj.output_shape
      = (none : Option (List Nat)).getD
          (inferEval (zerosFor [[2], [3]] inferWitnessObj.input_dtypes)).shape
    ∧ inferWitnessObj.output_dtype
      = (none : Option DType).getD
          (inferEval (zerosFor [[2], [3]] inferWitnessObj.input_dtypes)).dtype :=
  function_init_output_inference [[2], [3]] none inferEval
    (DTypeArg.single DType.float32) none false none inferWitnessObj rfl

namespace FlaxTrain

/-- Claim C7: `stats_obj` builds its insertion function from a string
template; the built body is exactly the seven-attribute return statement, the
generated function applied to any object returns exactly the 7-tuple
(obj.epoch, obj.time, obj.train_learning_rate, obj.train_loss,
obj.train_snr, obj.loss, obj.snr), and its arity 7 matches the number of
field names in `itstat_fields` (the `IterationStats` object returned
alongside it is configured with these fields). -/
theorem stats_obj_itstat_func_spec (V : Type) (obj : TrainStats V) :
    itstat_return
      = "return(obj.epoch, obj.time, obj.train_learning_rate, obj.train_loss, obj.train_snr, obj.loss, obj.snr)"
    ∧ itstat_insert_func obj
      = [some obj.epoch, some obj.time, some obj.train_learning_rate,
         some obj.train_loss, some obj.train_snr, some obj.loss, some obj.snr]
    ∧ itstat_fields.length = 7 ∧ itstat_attrib.length = 7 :=
  ⟨rfl, rfl, rfl, rfl⟩

/-- Witness for claim C7, at a concrete statistics object. -/
theorem stats_obj_itstat_func_spec_witness :
    itstat_insert_func sampleTrainStats
      = [some sampleTrainStats.epoch, some sampleTrainStats.time,
         some sampleTrainStats.train_learning_rate,
         some sampleTrainStats.train_loss, some sampleTrainStats.train_snr,
         some sampleTrainStats.loss, some sampleTrainStats.snr] :=
  (stats_obj_itstat_func_spec ℚ sampleTrainStats).2.1

end FlaxTrain

namespace Optimize

theorem solveLoop_attrCallback {V W E : Type} (P : NonLinearPADMM V W)
    (f : E → E) :
    ∀ (n : Nat) (s : SolverState V W E), s.stop = false →
      (P.solveLoop (attrCallback f) n s).ext = f^[n] s.ext
      ∧ (P.solveLoop (attrCallback f) n s).itnum = s.itnum + n
      ∧ (P.solveLoop (attrCallback f) n s).stop = false
      ∧ (P.solveLoop (attrCallback f) n s).history.length
          = s.history.length + n
  | 0, s, h => ⟨rfl, rfl, h, rfl⟩
  | n + 1, s, h => by
    have hstep : P.solveLoop (attrCallback f) (n + 1) s
        = P.solveLoop (attrCallback f) n
            (attrCallback f (recordStats
              { P.step s with itnum := (P.step s).itnum + 1 })) := by
      simp [NonLinearPADMM.solveLoop, h]
    obtain ⟨h1, h2, h3, h4⟩ := solveLoop_attrCallback P f n
      (attrCallback f (recordStats
        { P.step s with itnum := (P.step s).itnum + 1 })) h
    rw [hstep]
    refine ⟨?_, ?_, h3, ?_⟩
    · rw [h1, Function.iterate_succ_apply]
      rfl
    · rw [h2]
      show s.itnum + 1 + n = s.itnum + (n + 1)
      omega
    · rw [h4]
      show (s.history ++ [s.itnum + 1]).length + n = s.history.length + (n + 1)
      rw [List.length_append, List.length_singleton]
      omega

/-- Claim C2: for every `NonLinearPADMM` solver and every callback passed to
`solve`, the callback is invoked with the solver object once per iteration,
synchronously inside the iteration loop: a callback applying `f` to the
user attributes leaves them equal to `f` iterated `maxiter` times, so any
attribute mutation it performs (in particular setting an attribute to a
fixed value `v`) is observable on the object after `solve` returns, for any
`maxiter ≥ 1`. -/
theorem nlpadmm_callback_effect {V W E : Type} (P : NonLinearPADMM V W)
    (f : E → E) (s0 : SolverState V W E) (h : s0.stop = false) :
    (P.solve (attrCallback f) s0).ext = f^[P.maxiter] s0.ext
    ∧ (∀ v : E, 1 ≤ P.maxiter →
        (P.solve (attrCallback (fun _ => v)) s0).ext = v) := by
  constructor
  · exact (solveLoop_attrCallback P f P.maxiter s0 h).1
  · intro v hm
    show (P.solveLoop (attrCallback (fun _ => v)) P.maxiter s0).ext = v
    rw [(solveLoop_attrCallback P (fun _ => v) P.maxiter s0 h).1]
    obtain ⟨m, hm1⟩ : ∃ m, P.maxiter = m + 1 := ⟨P.maxiter - 1, by omega⟩
    rw [hm1, Function.iterate_succ_apply']

/-- Witness for claim C2: the `test_callback` scenario — a callback setting
the flag attribute to `True` leaves it `True` after `solve` returns. -/
theorem nlpadmm_callback_effect_witness :
    (sampleNLPADMM.solve (attrCallback (fun _ : Bool => true)) sampleState0).ext
      = true :=
  (nlpadmm_callback_effect sampleNLPADMM (fun _ => true) sampleState0 rfl).2
    true (by decide)

/-- Claim C6: for every configuration, `solve` terminates and returns
normally (it is a total function of the state) after exactly the configured
`maxiter` iterations — the counter advances by exactly `maxiter` and exactly
`maxiter` statistics records are emitted — regardless of any residual
magnitude: no residual tolerance appears anywhere in the loop, so no
exception for failing to attain one can be raised. -/
theorem nlpadmm_solve_maxiter {V W E : Type} (P : NonLinearPADMM V W)
    (s0 : SolverState V W E) (h : s0.stop = false) :
    (P.solve id s0).itnum = s0.itnum + P.maxiter
    ∧ (P.solve id s0).history.length = s0.history.length + P.maxiter := by
  constructor
  · exact (solveLoop_attrCallback P id P.maxiter s0 h).2.1
  · exact (solveLoop_attrCallback P id P.maxiter s0 h).2.2.2

/-- Witness for claim C6: the sample solver with `maxiter = 2` returns with
counter 2 and two recorded statistics rows. -/
theorem nlpadmm_solve_maxiter_witness :
    (sampleNLPADMM.solve id sampleState0).itnum = 2
    ∧ (sampleNLPADMM.solve id sampleState0).history.length = 2 :=
  nlpadmm_solve_maxiter sampleNLPADMM sampleState0 rfl

theorem solveLoop_x_shape {V W E : Type} (P : NonLinearPADMM V W)
    (sh : V → ShapeTree) (hxsub : ∀ x z u, sh (P.xsub x z u) = sh x) :
    ∀ (n : Nat) (s : SolverState V W E),
      sh (P.solveLoop id n s).x = sh s.x
  | 0, _ => rfl
  | n + 1, s => by
    by_cases h : s.stop
    · simp [NonLinearPADMM.solveLoop, h]
    · have hstep : P.solveLoop (id : SolverState V W E → SolverState V W E)
            (n + 1) s
          = P.solveLoop id n
              (id (recordStats
                { P.step s with itnum := (P.step s).itnum + 1 })) := by
        simp [NonLinearPADMM.solveLoop, h]
      rw [hstep, solveLoop_x_shape P sh hxsub n _]
      exact hxsub s.x s.z s.u

/-- Claim C3: for every valid configuration, the primal iterate returned by
`solve` has exactly the shape and dtype of the supplied initial value `x0`
(`sh` is the shape-and-dtype assignment of the array backend; the hypothesis
is the collaborator contract of spec §6 that the x-subproblem solver returns
an x-shaped value). In particular, when `x0` is a heterogeneous-shape block
array, the returned iterate is a block array whose components retain the
individual shapes of the components of `x0`. -/
theorem nlpadmm_solve_shape {V W E : Type} (P : NonLinearPADMM V W)
    (sh : V → ShapeTree)
    (hxsub : ∀ x z u, sh (P.xsub x z u) = sh x)
    (s0 : SolverState V W E) :
    sh (P.solve id s0).x = sh s0.x
    ∧ ∀ parts, sh s0.x = ShapeTree.block parts →
        sh (P.solve id s0).x = ShapeTree.block parts := by
  have h := solveLoop_x_shape P sh hxsub P.maxiter s0
  exact ⟨h, fun parts hp => h.trans hp⟩

/-- Witness for claim C3: on the heterogeneous block initial value of the
`TestBlockArray` scenario, the returned primal iterate is a block whose
components retain the shapes (32, 33) and (17,). -/
theorem nlpadmm_solve_shape_witness :
    (shapeNLPADMM.solve id shapeState0).x
      = ShapeTree.block [ShapeTree.leaf [32, 33] DType.float32,
          ShapeTree.leaf [17] DType.float32] :=
  (nlpadmm_solve_shape shapeNLPADMM id (fun _ _ _ => rfl) shapeState0).2
    [ShapeTree.leaf [32, 33] DType.float32,
     ShapeTree.leaf [17] DType.float32] rfl

/-- Claim C4: a solver constructed without an `itstat_options` argument gets
an iteration-statistics recorder configured with exactly 4 fields. -/
theorem nlpadmm_default_itstat_fields (S : Type) :
    (buildItstatObject S none).fieldname.length = 4 := rfl

/-- Witness for claim C4, at the concrete state type `Unit`. -/
theorem nlpadmm_default_itstat_fields_witness :
    (buildItstatObject Unit none).fieldname.length = 4 :=
  nlpadmm_default_itstat_fields Unit

/-- Claim C5: a solver constructed with an `itstat_options` mapping
specifying N named fields (together with an `itstat_func` computing the
value tuple) gets a recorder configured with exactly N fields — and when
N ≠ 4, not with the default field names. -/
theorem nlpadmm_custom_itstat_fields (S : Type) (o : ItstatOptions S) :
    (buildItstatObject S (some o)).fieldname.length = o.fields.length
    ∧ (o.fields.length ≠ 4 →
        (buildItstatObject S (some o)).fieldname
          ≠ (buildItstatObject S none).fieldname) := by
  constructor
  · simp [buildItstatObject, IterationStats.fieldname]
  · intro hne heq
    apply hne
    have hlen := congrArg List.length heq
    simpa [buildItstatObject, IterationStats.fieldname,
      defaultItstatFields] using hlen

/-- Witness for claim C5: with the two-field custom options the recorder has
exactly 2 fields, and not the default field names. -/
theorem nlpadmm_custom_itstat_fields_witness :
    (buildItstatObject Unit (some sampleItstatOptions)).fieldname.length = 2
    ∧ (buildItstatObject Unit (some sampleItstatOptions)).fieldname
        ≠ (buildItstatObject Unit none).fieldname :=
  ⟨(nlpadmm_custom_itstat_fields Unit sampleItstatOptions).1,
   (nlpadmm_custom_itstat_fields Unit sampleItstatOptions).2 (by decide)⟩

end Optimize

end Scico
